import Mathlib

/-!
Verification of the httptoolkit-ui presentation-layer fragment: the
RuleRow matcher/handler editing contract (src/components/mock/rule-row.tsx),
the InterceptOption card (interceptor selection view) and the
breakpointed-response status editor
(src/components/view/exchange-breakpoint-response-card.tsx).

JavaScript arrays are embedded as Lean lists; the array methods the code
uses (push, splice, filter) are defined below with their JS semantics.
Object identity (the JS `!==` comparison and the question of whether an
array object is mutated or replaced) is embedded with explicit reference
numbers: each Matcher carries a `uid` standing for its allocation
identity, and the stateful model `RuleRowState` carries a heap of arrays
indexed by references.
-/

namespace HttpToolkit

/-! ## Data model: matchers and handlers -/

/-- HTTP methods of the mockttp `Method` enum used by `MethodMatcher`. -/
inductive MethodT
  | GET | POST | PUT | DELETE | PATCH | HEAD | OPTIONS
deriving DecidableEq, Repr

/-- The enum reverse lookup `Method[m]` of the render code: the name of the method. -/
def MethodT.name : MethodT → String
  | .GET => "GET"
  | .POST => "POST"
  | .PUT => "PUT"
  | .DELETE => "DELETE"
  | .PATCH => "PATCH"
  | .HEAD => "HEAD"
  | .OPTIONS => "OPTIONS"

/-- Structural content of a matcher: either a mockttp MethodMatcher with its
method, or any other kind of matcher (URL, header, body, ...), summarised by a
kind string. -/
inductive MatcherData
  | methodMatcher (method : MethodT)
  | otherMatcher (kind : String)
deriving DecidableEq, Repr

/-- A matcher object: `uid` is its JS object identity (allocation reference),
`data` its structural content. Two matchers are identical (JS `===`) exactly
when their uids agree; they are structurally equal when their data agree. -/
structure Matcher where
  uid : Nat
  data : MatcherData
deriving DecidableEq, Repr

/-- A handler object (the rewrite/response action of a rule), summarised by an
identity and a kind. -/
structure Handler where
  uid : Nat
  kind : String
deriving DecidableEq, Repr

/-- A mock rule value: an ordered list of matchers plus exactly one handler,
as in `HtkMockRule`. -/
structure HtkMockRule where
  matchers : List Matcher
  handler : Handler
deriving DecidableEq, Repr

/-! ## JS array operations used by rule-row.tsx -/

/-- JS `Array.prototype.push`: appends one element at the end. -/
def jsPush (l : List α) (x : α) : List α := l ++ [x]

/-- JS `Array.prototype.splice(start, deleteCount, ...items)` for a
nonnegative `start`: the resulting array contents. JS clamps `start` to the
length and `deleteCount` to the remaining elements, which `take` and `drop`
do as well. -/
def jsSplice (l : List α) (start delCount : Nat) (items : List α) : List α :=
  l.take start ++ items ++ l.drop (start + delCount)

namespace RuleRow

/-- Embeds `addMatcher` of RuleRow: `this.props.value.matchers.push(matcher)`. -/
def addMatcher (m : Matcher) (r : HtkMockRule) : HtkMockRule :=
  { r with matchers := jsPush r.matchers m }

/-- Embeds `updateMatcher` of RuleRow:
`this.props.value.matchers.splice(index, 1, ...matchers)`. -/
def updateMatcher (index : Nat) (ms : List Matcher) (r : HtkMockRule) : HtkMockRule :=
  { r with matchers := jsSplice r.matchers index 1 ms }

/-- Embeds `deleteMatcher` of RuleRow:
`rule.matchers = rule.matchers.filter(m => m !== matcher)`. The JS `!==`
comparison is object identity, i.e. uid disagreement. -/
def deleteMatcher (m : Matcher) (r : HtkMockRule) : HtkMockRule :=
  { r with matchers := r.matchers.filter (fun x => x.uid != m.uid) }

/-- Embeds `updateHandler` of RuleRow: `this.props.value.handler = handler`. -/
def updateHandler (h : Handler) (r : HtkMockRule) : HtkMockRule :=
  { r with handler := h }

/-- Embeds the method computation of `RuleRow.render`: the initial matcher is
`rule.matchers[0]` when present; a MethodMatcher yields its method name via
the `Method` enum reverse lookup, any other matcher yields the string
"unknown", and an empty matcher list yields no method (`undefined`). -/
def methodBadge (r : HtkMockRule) : Option String :=
  match r.matchers with
  | [] => none
  | m :: _ =>
    match m.data with
    | .methodMatcher mt => some mt.name
    | .otherMatcher _ => some "unknown"

/-- Modelled from the spec: `getMethodColor` lives in
src/model/exchange-colors, which is not part of this fragment; the spec only
constrains it to be a colour determined by the method name. -/
def getMethodColor (method : String) : String :=
  "methodColor(" ++ method ++ ")"

/-- Embeds the borderColor computation of `RuleRow.render`:
`method ? getMethodColor(method) : transparent`. -/
def borderColor (r : HtkMockRule) : String :=
  match methodBadge r with
  | some m => getMethodColor m
  | none => "transparent"

end RuleRow

/-! ## Stateful model of RuleRow mutations: object identity

The mutation callbacks act on the externally owned rule instance. To settle
whether an operation mutates the matcher array in place or rebinds the
`matchers` field to a freshly allocated array, the state below carries an
explicit heap of arrays: `arrays r` is the contents of the array whose
reference is `r`, `nextRef` is the next fresh reference (every reference
below `nextRef` is allocated, everything at or above is fresh), `ruleRef` is
the identity of the rule object itself and `ruleMatchersRef` the reference
currently stored in the `matchers` field of the rule. -/

structure RuleRowState where
  ruleRef : Nat
  ruleMatchersRef : Nat
  ruleHandler : Handler
  arrays : Nat → List Matcher
  nextRef : Nat

/-- Writes the array heap at one reference. -/
def writeArr (h : Nat → List Matcher) (r : Nat) (v : List Matcher) : Nat → List Matcher :=
  fun x => if x = r then v else h x

namespace RuleRowState

/-- The matcher list currently held by the rule: the contents of the array its
`matchers` field refers to. -/
def matcherList (s : RuleRowState) : List Matcher :=
  s.arrays s.ruleMatchersRef

/-- Stateful embedding of `addMatcher`: `push` mutates the existing array in
place, so the contents at the current reference change and nothing is
allocated. -/
def addMatcherS (m : Matcher) (s : RuleRowState) : RuleRowState :=
  { s with arrays := writeArr s.arrays s.ruleMatchersRef (jsPush s.matcherList m) }

/-- Stateful embedding of `updateMatcher`: `splice` mutates the existing array
in place. -/
def updateMatcherS (index : Nat) (ms : List Matcher) (s : RuleRowState) : RuleRowState :=
  { s with arrays := writeArr s.arrays s.ruleMatchersRef (jsSplice s.matcherList index 1 ms) }

/-- Stateful embedding of `deleteMatcher`: `filter` allocates a NEW array
holding the surviving matchers, and the assignment
`rule.matchers = rule.matchers.filter(...)` rebinds the `matchers` field of
the same rule instance to that fresh array. -/
def deleteMatcherS (m : Matcher) (s : RuleRowState) : RuleRowState :=
  { s with
    arrays := writeArr s.arrays s.nextRef (s.matcherList.filter (fun x => x.uid != m.uid)),
    ruleMatchersRef := s.nextRef,
    nextRef := s.nextRef + 1 }

/-- Stateful embedding of `updateHandler`: plain field assignment on the same
rule instance. -/
def updateHandlerS (h : Handler) (s : RuleRowState) : RuleRowState :=
  { s with ruleHandler := h }

end RuleRowState

/-! ## Interceptor model (src/unnamed/part_000: intercept-option view) -/

/-- The custom UI configuration descriptor `InterceptorCustomUiConfig`:
preferred grid width/height, a config component (always present in the
descriptor, so embedded only by its presence in `uiConfig`), and an optional
custom status pill, embedded by its presence. -/
structure InterceptorCustomUiConfig where
  columnWidth : Nat
  rowHeight : Nat
  customPill : Bool
deriving DecidableEq, Repr

/-- The interceptor model object, as read by the view: activation state
flags, optional custom UI config, and static descriptive text. -/
structure Interceptor where
  id : String
  isActive : Bool
  isActivable : Bool
  isSupported : Bool
  inProgress : Bool
  uiConfig : Option InterceptorCustomUiConfig
  name : String
  description : List String
deriving DecidableEq, Repr

/-- Whether `interceptor.uiConfig?.customPill` is truthy. -/
def Interceptor.hasCustomPill (i : Interceptor) : Bool :=
  match i.uiConfig with
  | some cfg => cfg.customPill
  | none => false

/-- The possible pills `getStatusPill` can render. -/
inductive PillChoice
  | customPill
  | activated
  | notAvailable
  | comingSoon
deriving DecidableEq, Repr

/-- Embeds `getStatusPill`: custom pill when the UI config provides one, else
the Activated pill when active, else Not available / Coming soon when not
activable depending on support, else no pill at all. -/
def getStatusPill (i : Interceptor) : Option PillChoice :=
  if i.hasCustomPill then some .customPill
  else if i.isActive then some .activated
  else if !i.isActivable then
    if i.isSupported then some .notAvailable
    else some .comingSoon
  else none

/-- External calls the intercept-option component makes: analytics events,
activation requests to the interceptor store, DOM scrolling, and the
showRequests navigation callback. -/
inductive Effect
  | trackEvent (category actionName label : String)
  | storeActivate (id : String)
  | scrollIntoView
  | showRequests
deriving DecidableEq, Repr

/-- Component state of InterceptOption relevant to the claims: the
interceptor prop (the externally owned model object) and the observable
`expanded` flag. -/
structure InterceptOptionState where
  interceptor : Interceptor
  expanded : Bool
deriving DecidableEq, Repr

namespace InterceptOption

/-- Embeds `InterceptOption.onClick` (reachable only on the collapsed card):
always tracks an Activated event; returns early when the interceptor is not
activable; expands the card (and scrolls it into view) when a custom UI
config exists; otherwise requests activation from the interceptor store. The
asynchronous success continuation of that request is not part of the claims
and is not modelled. -/
def onClick (s : InterceptOptionState) : InterceptOptionState × List Effect :=
  let i := s.interceptor
  let track := Effect.trackEvent "Interceptors" "Activated" i.id
  if !i.isActivable then (s, [track])
  else
    match i.uiConfig with
    | some _ => ({ s with expanded := true }, [track, .scrollIntoView])
    | none => (s, [track, .storeActivate i.id])

/-- Embeds `InterceptOption.onClose`: collapses the card. -/
def onClose (s : InterceptOptionState) : InterceptOptionState × List Effect :=
  ({ s with expanded := false }, [])

/-- Embeds `InterceptOption.activateInterceptor`: delegates to the
interceptor store for the id of the interceptor prop. -/
def activateInterceptor (s : InterceptOptionState) : InterceptOptionState × List Effect :=
  (s, [.storeActivate s.interceptor.id])

end InterceptOption

/-! ## Breakpointed-response status editor
(src/components/view/exchange-breakpoint-response-card.tsx) -/

/-- The status-code argument of `onStatusChange`: a number or the empty
string value of a cleared input. -/
inductive StatusInput
  | empty
  | num (n : Int)
deriving DecidableEq, Repr

/-- A JS number that may be NaN. -/
inductive JSNumber
  | nan
  | num (n : Int)
deriving DecidableEq, Repr

/-- Embeds the JS expression `statusCode || NaN`: the falsy values among the
possible inputs are the empty string and the number 0, which yield NaN;
every other number is truthy and passes through. -/
def statusOrNaN : StatusInput → JSNumber
  | .empty => .nan
  | .num n => if n = 0 then .nan else .num n

/-- A `Partial BreakpointResponseResult` as emitted through onChange: each
field is absent (`none`) or present with a value. The statusMessage value
itself may be undefined, hence the nested Option. Fields of
BreakpointResponseResult other than statusCode and statusMessage are
summarised by the headers field. -/
structure BreakpointResponsePatch where
  statusCode : Option JSNumber
  statusMessage : Option (Option String)
  headers : Option (List (String × String))
deriving DecidableEq, Repr

/-- Embeds `ExchangeBreakpointResponseCard.onStatusChange`:
`this.props.onChange(\x7b statusCode: statusCode || NaN, statusMessage \x7d)`
builds the emitted patch. -/
def onStatusChange (statusCode : StatusInput) (statusMessage : Option String) :
    BreakpointResponsePatch :=
  { statusCode := some (statusOrNaN statusCode),
    statusMessage := some statusMessage,
    headers := none }

/-! ## Concrete example values used by witnesses -/

/-- A concrete handler. -/
def exampleHandler : Handler := ⟨100, "passthrough"⟩

/-- A concrete matcher list: a method matcher followed by two other matchers. -/
def exampleMatchers : List Matcher :=
  [⟨0, .methodMatcher .GET⟩, ⟨1, .otherMatcher "url"⟩, ⟨2, .otherMatcher "query"⟩]

/-- A concrete rule. -/
def exampleRule : HtkMockRule := ⟨exampleMatchers, exampleHandler⟩

/-- A concrete matcher used as the deletion target. -/
def exampleMatcher : Matcher := ⟨1, .otherMatcher "url"⟩

/-- A rule holding the deletion target plus a structurally equal but distinct
matcher (same data, different identity). -/
def exampleRuleWithTwin : HtkMockRule :=
  ⟨[⟨1, .otherMatcher "url"⟩, ⟨2, .otherMatcher "url"⟩, ⟨3, .otherMatcher "header"⟩],
   exampleHandler⟩

/-- A concrete rule-row heap state: one rule whose matchers field refers to
array 0 holding one matcher; reference 1 is the next fresh reference. -/
def exampleState : RuleRowState :=
  { ruleRef := 0,
    ruleMatchersRef := 0,
    ruleHandler := exampleHandler,
    arrays := writeArr (fun _ => []) 0 [exampleMatcher],
    nextRef := 1 }

/-- A concrete activable interceptor without a custom UI config. -/
def exampleInterceptorNoConfig : Interceptor :=
  ⟨"fresh-firefox", false, true, true, false, none, "Fresh Firefox",
   ["Launch a preconfigured browser"]⟩

/-! ## Claim theorems -/

/-- C1: for every rule with matcher list ms, every index i with i < length ms
and every replacement list rs, updateMatcher i rs leaves the matcher list
equal to take i ms ++ rs ++ drop (i+1) ms: exactly the matcher at index i is
replaced by the given matchers and all others keep their relative order. -/
theorem updateMatcher_replaces_one_with_many
    (r : HtkMockRule) (i : Nat) (rs : List Matcher)
    (_h : i < r.matchers.length) :
    (RuleRow.updateMatcher i rs r).matchers =
      r.matchers.take i ++ rs ++ r.matchers.drop (i + 1) := rfl

/-- Witness for C1 at index 1 of the three-element example rule. -/
theorem updateMatcher_replaces_one_with_many_witness :
    1 < exampleRule.matchers.length ∧
    (RuleRow.updateMatcher 1 [⟨10, .otherMatcher "header"⟩, ⟨11, .otherMatcher "body"⟩]
        exampleRule).matchers =
      exampleRule.matchers.take 1 ++
        [⟨10, .otherMatcher "header"⟩, ⟨11, .otherMatcher "body"⟩] ++
        exampleRule.matchers.drop 2 :=
  ⟨by decide,
   updateMatcher_replaces_one_with_many exampleRule 1
     [⟨10, .otherMatcher "header"⟩, ⟨11, .otherMatcher "body"⟩] (by decide)⟩

/-- C2: deleteMatcher m removes exactly the matchers identical to m (same
object identity, i.e. same uid): the result is a sublist of the original
list (order preserved), membership is characterised by uid disagreement, and
a structurally equal but distinct matcher survives. -/
theorem deleteMatcher_removes_by_identity (m : Matcher) (r : HtkMockRule) :
    (RuleRow.deleteMatcher m r).matchers.Sublist r.matchers ∧
    (∀ x : Matcher,
      x ∈ (RuleRow.deleteMatcher m r).matchers ↔ x ∈ r.matchers ∧ x.uid ≠ m.uid) ∧
    (∀ x : Matcher, x ∈ r.matchers → x.data = m.data → x.uid ≠ m.uid →
      x ∈ (RuleRow.deleteMatcher m r).matchers) := by
  refine ⟨List.filter_sublist _, fun x => ?_, fun x hx hdata hne => ?_⟩
  · simp [RuleRow.deleteMatcher, List.mem_filter]
  · simp [RuleRow.deleteMatcher, List.mem_filter, hx, hne]

/-- Witness for C2: deleting the uid-1 "url" matcher from the example keeps
the structurally equal uid-2 "url" matcher. -/
theorem deleteMatcher_removes_by_identity_witness :
    (⟨2, .otherMatcher "url"⟩ : Matcher) ∈
      (RuleRow.deleteMatcher exampleMatcher exampleRuleWithTwin).matchers :=
  (deleteMatcher_removes_by_identity exampleMatcher exampleRuleWithTwin).2.2
    ⟨2, .otherMatcher "url"⟩ (by decide) (by decide) (by decide)

/-- C3: addMatcher m appends the new matcher at the end of the matcher list,
leaving every existing matcher unchanged in its position. -/
theorem addMatcher_appends (m : Matcher) (r : HtkMockRule) :
    (RuleRow.addMatcher m r).matchers = r.matchers ++ [m] := rfl

/-- C4: the method badge is determined solely by the first matcher: an empty
matcher list shows no method (transparent border colour), a MethodMatcher
first shows its method name, any other first matcher shows "unknown", and
two rules with the same first matcher get the same badge regardless of later
matchers. -/
theorem methodBadge_first_matcher_only :
    (∀ r : HtkMockRule, r.matchers = [] →
      RuleRow.methodBadge r = none ∧ RuleRow.borderColor r = "transparent") ∧
    (∀ (r : HtkMockRule) (u : Nat) (mt : MethodT) (rest : List Matcher),
      r.matchers = ⟨u, .methodMatcher mt⟩ :: rest →
      RuleRow.methodBadge r = some mt.name) ∧
    (∀ (r : HtkMockRule) (u : Nat) (k : String) (rest : List Matcher),
      r.matchers = ⟨u, .otherMatcher k⟩ :: rest →
      RuleRow.methodBadge r = some "unknown") ∧
    (∀ r₁ r₂ : HtkMockRule, r₁.matchers.head? = r₂.matchers.head? →
      RuleRow.methodBadge r₁ = RuleRow.methodBadge r₂) := by
  refine ⟨?_, ?_, ?_, ?_⟩
  · intro r h
    simp [RuleRow.methodBadge, RuleRow.borderColor, h]
  · intro r u mt rest h
    simp [RuleRow.methodBadge, h]
  · intro r u k rest h
    simp [RuleRow.methodBadge, h]
  · intro r₁ r₂ h
    obtain ⟨ms₁, h₁⟩ := r₁
    obtain ⟨ms₂, h₂⟩ := r₂
    cases ms₁ <;> cases ms₂ <;> simp_all [RuleRow.methodBadge]

/-- Witness for C4: the empty rule shows no method and a POST-first rule
shows POST, whatever follows. -/
theorem methodBadge_first_matcher_only_witness :
    RuleRow.methodBadge ⟨[], exampleHandler⟩ = none ∧
    RuleRow.methodBadge
      ⟨[⟨0, .methodMatcher .POST⟩, ⟨1, .otherMatcher "url"⟩], exampleHandler⟩ =
      some "POST" :=
  ⟨(methodBadge_first_matcher_only.1 ⟨[], exampleHandler⟩ rfl).1,
   methodBadge_first_matcher_only.2.1
     ⟨[⟨0, .methodMatcher .POST⟩, ⟨1, .otherMatcher "url"⟩], exampleHandler⟩
     0 .POST [⟨1, .otherMatcher "url"⟩] rfl⟩

/-- C5 counterexample: the claim says every matcher mutation modifies the
matcher list in place rather than replacing it by a new list object, but
deleteMatcher assigns a freshly allocated filtered array to the matchers
field: on the concrete example state the reference held in the matchers
field changes. -/
theorem deleteMatcher_allocates_new_array :
    (RuleRowState.deleteMatcherS exampleMatcher exampleState).ruleMatchersRef ≠
      exampleState.ruleMatchersRef := by decide

/-- C5 amended: addMatcher and updateMatcher mutate the matcher array in
place (the rule instance and the array reference in its matchers field are
unchanged); deleteMatcher keeps the same rule instance but rebinds its
matchers field to a freshly allocated array, which differs from the old one
whenever the state is well formed (the held reference is below the fresh
mark). -/
theorem matcher_mutations_instance_behavior
    (s : RuleRowState) (m : Matcher) (i : Nat) (ms : List Matcher)
    (hwf : s.ruleMatchersRef < s.nextRef) :
    (s.addMatcherS m).ruleRef = s.ruleRef ∧
    (s.addMatcherS m).ruleMatchersRef = s.ruleMatchersRef ∧
    (s.updateMatcherS i ms).ruleRef = s.ruleRef ∧
    (s.updateMatcherS i ms).ruleMatchersRef = s.ruleMatchersRef ∧
    (s.deleteMatcherS m).ruleRef = s.ruleRef ∧
    (s.deleteMatcherS m).ruleMatchersRef = s.nextRef ∧
    (s.deleteMatcherS m).ruleMatchersRef ≠ s.ruleMatchersRef :=
  ⟨rfl, rfl, rfl, rfl, rfl, rfl, ne_of_gt hwf⟩

/-- Witness for the amended C5 on the concrete example state. -/
theorem matcher_mutations_instance_behavior_witness :
    exampleState.ruleMatchersRef < exampleState.nextRef ∧
    (exampleState.addMatcherS exampleMatcher).ruleMatchersRef =
      exampleState.ruleMatchersRef ∧
    (exampleState.deleteMatcherS exampleMatcher).ruleMatchersRef ≠
      exampleState.ruleMatchersRef :=
  ⟨by decide,
   (matcher_mutations_instance_behavior exampleState exampleMatcher 0 [] (by decide)).2.1,
   (matcher_mutations_instance_behavior exampleState exampleMatcher 0 []
     (by decide)).2.2.2.2.2.2⟩

/-- C6: clicking the collapsed card of a non-activable interceptor leaves the
card collapsed and requests no activation; with a custom UI config the card
expands and no activation is requested; without one, activation is delegated
to the interceptor store for that interceptor id. -/
theorem onClick_dispatch (s : InterceptOptionState) (hexp : s.expanded = false) :
    (s.interceptor.isActivable = false →
      (InterceptOption.onClick s).1.expanded = false ∧
      ∀ id, Effect.storeActivate id ∉ (InterceptOption.onClick s).2) ∧
    (s.interceptor.isActivable = true → s.interceptor.uiConfig.isSome = true →
      (InterceptOption.onClick s).1.expanded = true ∧
      ∀ id, Effect.storeActivate id ∉ (InterceptOption.onClick s).2) ∧
    (s.interceptor.isActivable = true → s.interceptor.uiConfig = none →
      Effect.storeActivate s.interceptor.id ∈ (InterceptOption.onClick s).2) := by
  obtain ⟨i, e⟩ := s
  obtain ⟨id, act, actv, sup, prog, cfg, nm, desc⟩ := i
  simp only at hexp
  subst hexp
  cases actv <;> rcases cfg with _ | ⟨cw, rh, cp⟩ <;>
    simp [InterceptOption.onClick]

/-- Witness for C6: the concrete activable, config-free interceptor gets an
activation request for its id. -/
theorem onClick_dispatch_witness :
    Effect.storeActivate "fresh-firefox" ∈
      (InterceptOption.onClick ⟨exampleInterceptorNoConfig, false⟩).2 :=
  (onClick_dispatch ⟨exampleInterceptorNoConfig, false⟩ rfl).2.2 rfl rfl

/-- C8: no operation of the intercept-option view changes the interceptor
model object, and every external call it emits is the activation request to
the interceptor store, the analytics event, or DOM scrolling: the only
write-back towards the model is the activateInterceptor call on the store. -/
theorem view_never_mutates_interceptor (s : InterceptOptionState) :
    (InterceptOption.onClick s).1.interceptor = s.interceptor ∧
    (InterceptOption.onClose s).1.interceptor = s.interceptor ∧
    (InterceptOption.activateInterceptor s).1.interceptor = s.interceptor ∧
    ∀ e ∈ (InterceptOption.onClick s).2 ++ (InterceptOption.onClose s).2 ++
        (InterceptOption.activateInterceptor s).2,
      e = Effect.storeActivate s.interceptor.id ∨
      e = Effect.trackEvent "Interceptors" "Activated" s.interceptor.id ∨
      e = Effect.scrollIntoView := by
  obtain ⟨i, e⟩ := s
  obtain ⟨id, act, actv, sup, prog, cfg, nm, desc⟩ := i
  cases actv <;> rcases cfg with _ | ⟨cw, rh, cp⟩ <;>
    simp [InterceptOption.onClick, InterceptOption.onClose,
      InterceptOption.activateInterceptor]

/-- Witness for C8 on the concrete interceptor: the activation effect of the
click is one of the permitted external calls, and the interceptor prop is
untouched. -/
theorem view_never_mutates_interceptor_witness :
    (InterceptOption.onClick ⟨exampleInterceptorNoConfig, false⟩).1.interceptor =
      exampleInterceptorNoConfig ∧
    (Effect.storeActivate "fresh-firefox" = Effect.storeActivate "fresh-firefox" ∨
      Effect.storeActivate "fresh-firefox" =
        Effect.trackEvent "Interceptors" "Activated" "fresh-firefox" ∨
      Effect.storeActivate "fresh-firefox" = Effect.scrollIntoView) :=
  ⟨(view_never_mutates_interceptor ⟨exampleInterceptorNoConfig, false⟩).1,
   (view_never_mutates_interceptor ⟨exampleInterceptorNoConfig, false⟩).2.2.2
     (Effect.storeActivate "fresh-firefox") (by decide)⟩

/-- C7: updateHandler h sets the handler to exactly h and leaves the matcher
list unchanged; no matcher mutation changes the handler. The rule carries
exactly one handler by construction of HtkMockRule. -/
theorem updateHandler_replaces_handler_only
    (r : HtkMockRule) (h : Handler) (m : Matcher) (i : Nat) (ms : List Matcher) :
    (RuleRow.updateHandler h r).handler = h ∧
    (RuleRow.updateHandler h r).matchers = r.matchers ∧
    (RuleRow.addMatcher m r).handler = r.handler ∧
    (RuleRow.updateMatcher i ms r).handler = r.handler ∧
    (RuleRow.deleteMatcher m r).handler = r.handler :=
  ⟨rfl, rfl, rfl, rfl, rfl⟩

/-- C9: the status pill is a total deterministic precedence chain: custom
pill first, then Activated exactly when active, then Not available or Coming
soon by support when not activable, and no pill exactly when activable,
inactive and without a custom pill. -/
theorem getStatusPill_precedence (i : Interceptor) :
    (getStatusPill i = some .customPill ↔ i.hasCustomPill = true) ∧
    (getStatusPill i = some .activated ↔
      i.hasCustomPill = false ∧ i.isActive = true) ∧
    (getStatusPill i = some .notAvailable ↔
      i.hasCustomPill = false ∧ i.isActive = false ∧
      i.isActivable = false ∧ i.isSupported = true) ∧
    (getStatusPill i = some .comingSoon ↔
      i.hasCustomPill = false ∧ i.isActive = false ∧
      i.isActivable = false ∧ i.isSupported = false) ∧
    (getStatusPill i = none ↔
      i.hasCustomPill = false ∧ i.isActive = false ∧ i.isActivable = true) := by
  obtain ⟨id, act, actv, sup, prog, cfg, nm, desc⟩ := i
  rcases cfg with _ | ⟨cw, rh, cp⟩
  · cases act <;> cases actv <;> cases sup <;>
      simp [getStatusPill, Interceptor.hasCustomPill]
  · cases cp <;> cases act <;> cases actv <;> cases sup <;>
      simp [getStatusPill, Interceptor.hasCustomPill]

/-- C10: the emitted partial response carries the entered status code when it
is a non-zero number and NaN when it is empty or zero, passes the status
message through unchanged, and contains no other field. -/
theorem onStatusChange_patch (sc : StatusInput) (sm : Option String) :
    (∀ n : Int, sc = .num n → n ≠ 0 →
      (onStatusChange sc sm).statusCode = some (.num n)) ∧
    ((sc = .empty ∨ sc = .num 0) →
      (onStatusChange sc sm).statusCode = some .nan) ∧
    (onStatusChange sc sm).statusMessage = some sm ∧
    (onStatusChange sc sm).headers = none := by
  refine ⟨?_, ?_, rfl, rfl⟩
  · rintro n rfl hn
    simp [onStatusChange, statusOrNaN, hn]
  · rintro (rfl | rfl) <;> simp [onStatusChange, statusOrNaN]

/-- Witness for C10: a 404 passes through and a cleared field becomes NaN. -/
theorem onStatusChange_patch_witness :
    (onStatusChange (.num 404) (some "Not Found")).statusCode = some (.num 404) ∧
    (onStatusChange .empty none).statusCode = some .nan :=
  ⟨(onStatusChange_patch (.num 404) (some "Not Found")).1 404 rfl (by decide),
   (onStatusChange_patch .empty none).2.1 (Or.inl rfl)⟩

end HttpToolkit
